import Mathlib

/-!
# Verification of the anonymous message board server

Shallow embedding of the repository's three server revisions (the bare
message-only revision, the +location revision, and the canonical
+location+device revision in `server.js`) and proofs about the claims on
their behaviour.

JavaScript strings are modelled as Lean `String`s; the handful of
JavaScript string primitives the code uses (`includes`, `trim`,
`toLowerCase`, `split(',')[0]`, `startsWith`, `substring`) are modelled
explicitly over the character list so that everything evaluates inside the
kernel.  JavaScript numbers are modelled as `ℚ` (`null`/`undefined` as
`none`), and JavaScript truthiness is made explicit at each use site.
-/

/-- Model of JavaScript's whitespace test, restricted to the ASCII
whitespace characters relevant here (space, tab, newline, carriage
return). -/
def jsWs (c : Char) : Bool :=
  c == ' ' || c == '\t' || c == '\n' || c == '\r'

/-- Model of JavaScript `String.prototype.trim`: drop leading and trailing
whitespace. -/
def jsTrim (s : String) : String :=
  ⟨((s.data.dropWhile jsWs).reverse.dropWhile jsWs).reverse⟩

/-- Does `sub` occur as a contiguous sublist of the given list? -/
def listContainsSub (sub : List Char) : List Char → Bool
  | [] => sub.isEmpty
  | c :: rest => sub.isPrefixOf (c :: rest) || listContainsSub sub rest

/-- Model of JavaScript `String.prototype.includes`. -/
def jsIncludes (s sub : String) : Bool :=
  listContainsSub sub.data s.data

/-- Model of JavaScript `String.prototype.startsWith`. -/
def jsStartsWith (s p : String) : Bool :=
  p.data.isPrefixOf s.data

/-- Model of JavaScript `str.split(',')[0]`: the prefix before the first
comma (the whole string when there is no comma). -/
def jsSplitHeadComma (s : String) : String :=
  ⟨s.data.takeWhile (fun c => !(c == ','))⟩

/-- Model of JavaScript `String.prototype.toLowerCase` (ASCII range, which
is all the user-agent matching needs). -/
def jsToLower (s : String) : String :=
  ⟨s.data.map (fun c => if 'A' ≤ c && c ≤ 'Z' then Char.ofNat (c.toNat + 32) else c)⟩

/-- Model of JavaScript `str.substring(n)`. -/
def jsSubstringFrom (s : String) (n : Nat) : String :=
  ⟨s.data.drop n⟩

/-- JavaScript truthiness of an optional string (`undefined` and the empty
string are falsy). -/
def truthyOS (v : Option String) : Bool :=
  match v with
  | none => false
  | some s => !s.isEmpty

/-- Model of JavaScript `a || b` where `a` is an optional string and `b` a
string default. -/
def orElseStr (v : Option String) (d : String) : String :=
  match v with
  | none => d
  | some s => if s.isEmpty then d else s

/-- Model of JavaScript `v || null` on an optional number: `0` (and
absence) collapse to `null`. -/
def jsNumOrNull (v : Option ℚ) : Option ℚ :=
  match v with
  | none => none
  | some q => if q = 0 then none else some q

/-- JavaScript truthiness of an optional number: present and nonzero. -/
def jsNumTruthy (v : Option ℚ) : Bool :=
  match v with
  | none => false
  | some q => !(q == 0)

/-- Model of JavaScript `v || null` on an optional boolean: only `true`
survives. -/
def jsBoolOrNull (v : Option Bool) : Option Bool :=
  match v with
  | some true => some true
  | _ => none

/-! ## The incoming request

The fields `getClientIP` and the submission handler read from the Express
request object: the three forwarding headers, the two transport-level peer
addresses, Express's own `req.ip`, the user-agent header, and the JSON
body. -/

/-- The client-reported device capability bundle (`deviceInfo` in the
request body); every field may be absent, mirroring a plain JSON object. -/
structure DeviceData where
  platform : Option String := none
  isMobile : Option Bool := none
  isTablet : Option Bool := none
  screenWidth : Option ℚ := none
  screenHeight : Option ℚ := none
  colorDepth : Option ℚ := none
  pixelRatio : Option ℚ := none
  connectionType : Option String := none
  isOnline : Option Bool := none
  touchSupport : Option Bool := none
  cookiesEnabled : Option Bool := none
  javaEnabled : Option Bool := none
  batteryLevel : Option ℚ := none
  batteryCharging : Option Bool := none
  hasGyroscope : Option Bool := none
  hasAccelerometer : Option Bool := none
  hasCompass : Option Bool := none
deriving DecidableEq

/-- The empty client bundle, modelling the `clientDeviceInfo || {}`
fallback object. -/
def emptyDeviceData : DeviceData := {}

/-- The request body accepted by `POST /send-message`. -/
structure ReqBody where
  message : Option String
  gps_latitude : Option ℚ
  gps_longitude : Option ℚ
  gps_accuracy : Option ℚ
  browser_timezone : Option String
  browser_language : Option String
  deviceInfo : Option DeviceData
deriving DecidableEq

/-- The parts of the Express request object that the server reads. -/
structure Request where
  xForwardedFor : Option String
  xRealIP : Option String
  xClientIP : Option String
  connectionRemoteAddress : Option String
  socketRemoteAddress : Option String
  reqIp : Option String
  userAgent : Option String
  body : ReqBody
deriving DecidableEq

/-! ## Client-IP resolver (`getClientIP`, `server.js` lines 110-136)

All three revisions contain this function verbatim; the canonical
transcription is here and the other two revisions' copies are in the
`Rev0`/`Rev1` namespaces below. -/

/-- Transcription of `getClientIP` from `server.js`. -/
def getClientIP (req : Request) : String :=
  let ip := orElseStr req.xForwardedFor
    (orElseStr req.xRealIP
      (orElseStr req.xClientIP
        (orElseStr req.connectionRemoteAddress
          (orElseStr req.socketRemoteAddress
            (orElseStr req.reqIp "127.0.0.1")))))
  let ip := if jsIncludes ip "," then jsTrim (jsSplitHeadComma ip) else ip
  let ip := if ip = "::1" then "127.0.0.1" else ip
  let ip := if jsStartsWith ip "::ffff:" then jsSubstringFrom ip 7 else ip
  ip

/-- Claim-side definition (C3): the raw-source preference order stated by
the spec — `X-Forwarded-For`, then `X-Real-IP`, then `X-Client-IP`, then
the transport peer address (in the source, the `connection`/`socket`
remote addresses followed by Express's `req.ip`), falling back to the
literal `"127.0.0.1"`. -/
def claimRawIP (r : Request) : String :=
  if truthyOS r.xForwardedFor = true then r.xForwardedFor.getD ""
  else if truthyOS r.xRealIP = true then r.xRealIP.getD ""
  else if truthyOS r.xClientIP = true then r.xClientIP.getD ""
  else if truthyOS r.connectionRemoteAddress = true then r.connectionRemoteAddress.getD ""
  else if truthyOS r.socketRemoteAddress = true then r.socketRemoteAddress.getD ""
  else if truthyOS r.reqIp = true then r.reqIp.getD ""
  else "127.0.0.1"

/-- Claim-side definition (C3): normalisation of the chosen value — first
entry of a comma-separated list (trimmed), `"::1"` rewritten to
`"127.0.0.1"`, and a leading `"::ffff:"` stripped. -/
def claimNormalizeIP (ip : String) : String :=
  let ip := if jsIncludes ip "," then jsTrim (jsSplitHeadComma ip) else ip
  let ip := if ip = "::1" then "127.0.0.1" else ip
  let ip := if jsStartsWith ip "::ffff:" then jsSubstringFrom ip 7 else ip
  ip

lemma orElseStr_eq_ite (v : Option String) (d : String) :
    orElseStr v d = if truthyOS v = true then v.getD "" else d := by
  cases v with
  | none => simp [orElseStr, truthyOS]
  | some s =>
    simp only [orElseStr, truthyOS, Option.getD_some]
    cases h : s.isEmpty <;> simp [h]

/-- C3: for every request the client-IP resolver returns the claimed
preference chain (X-Forwarded-For, X-Real-IP, X-Client-IP, transport peer
address, literal loopback fallback) followed by the claimed normalisation
(first comma entry trimmed, `::1` rewritten to `127.0.0.1`, `::ffff:`
prefix stripped); being `String`-valued it never fails. -/
theorem getClientIP_matches_claimed_resolver (r : Request) :
    getClientIP r = claimNormalizeIP (claimRawIP r) := by
  simp only [getClientIP, claimNormalizeIP, claimRawIP, orElseStr_eq_ite]

/-! ## Geolocation client adapter (`getIPGeolocation`, `server.js` lines 139-172)

The external `fetch` to the geolocation service is modelled by a
`FetchOutcome` oracle passed in explicitly: either a parsed payload, or
one of the three failure modes absorbed by the `try`/`catch`.  The
adapter's result carries an `issuedCall` flag recording whether the
external lookup was reached (it is `false` exactly on the private-address
short-circuit). -/

/-- The fields of the external service's JSON payload that the adapter
reads; each may be absent or empty. -/
structure GeoPayload where
  country_name : Option String
  city : Option String
  region : Option String
  timezone : Option String
deriving DecidableEq

/-- Outcome of the external `fetch`: a parsed payload, a non-success HTTP
response, a network error, or a malformed payload (the latter three all
throw inside the `try`). -/
inductive FetchOutcome where
  | ok (data : GeoPayload)
  | notOk
  | networkError
  | malformedPayload
deriving DecidableEq

/-- Is this outcome one of the failure modes? -/
def FetchOutcome.isFailure : FetchOutcome → Bool
  | .ok _ => false
  | _ => true

/-- The structured location record the adapter returns. -/
structure GeoResult where
  country : String
  city : String
  region : String
  timezone : String
deriving DecidableEq

/-- The fixed sentinel returned for private/loopback addresses. -/
def localSentinel : GeoResult :=
  ⟨"Local", "Localhost", "Local", "Local"⟩

/-- The fixed sentinel returned on any lookup failure. -/
def unknownSentinel : GeoResult :=
  ⟨"Unknown", "Unknown", "Unknown", "Unknown"⟩

/-- Adapter result plus whether the external lookup was issued. -/
structure GeoOutcome where
  result : GeoResult
  issuedCall : Bool
deriving DecidableEq

/-- Transcription of `getIPGeolocation` from `server.js`. -/
def getIPGeolocation (ip : String) (o : FetchOutcome) : GeoOutcome :=
  if ip == "127.0.0.1" || ip == "::1" || jsStartsWith ip "192.168." || jsStartsWith ip "10." then
    ⟨localSentinel, false⟩
  else
    match o with
    | .ok data =>
        ⟨⟨orElseStr data.country_name "Unknown",
          orElseStr data.city "Unknown",
          orElseStr data.region "Unknown",
          orElseStr data.timezone "Unknown"⟩, true⟩
    | _ => ⟨unknownSentinel, true⟩

/-- C6: a loopback IP (either form) or an IP with a private-network prefix
(`192.168.` or `10.`) gets the fixed Local sentinel and never issues an
external lookup. -/
theorem private_ip_gets_local_sentinel (ip : String) (o : FetchOutcome)
    (h : ip = "127.0.0.1" ∨ ip = "::1" ∨
         jsStartsWith ip "192.168." = true ∨ jsStartsWith ip "10." = true) :
    getIPGeolocation ip o = ⟨localSentinel, false⟩ := by
  have hc : (ip == "127.0.0.1" || ip == "::1" ||
      jsStartsWith ip "192.168." || jsStartsWith ip "10.") = true := by
    rcases h with h | h | h | h <;> simp [h]
  simp [getIPGeolocation, hc]

/-- Witness for C6 at the spec's own example `"10.1.2.3"`. -/
theorem private_ip_gets_local_sentinel_witness :
    jsStartsWith "10.1.2.3" "10." = true ∧
    getIPGeolocation "10.1.2.3" .networkError = ⟨localSentinel, false⟩ :=
  ⟨by decide,
   private_ip_gets_local_sentinel "10.1.2.3" .networkError (Or.inr (Or.inr (Or.inr (by decide))))⟩

/-! ## Location reconciler (`determineBestLocation`, `part_001` lines 134-159)

`determineBestLocation` is defined and used by the +location revision
(`part_001`); the transcription here is taken from that file.  The
canonical `server.js` also calls `determineBestLocation` (line 345) but
never defines it and imports nothing beyond express/mongoose/path, so in
the canonical revision that call throws a ReferenceError — see the
submission-handler model below. -/

/-- The raw location bundle built by the handler and consumed by the
reconciler. -/
structure LocationData where
  ip_country : String
  ip_city : String
  ip_region : String
  ip_timezone : String
  gps_latitude : Option ℚ
  gps_longitude : Option ℚ
  gps_accuracy : Option ℚ
  browser_timezone : String
  browser_language : String
deriving DecidableEq

/-- The reconciler's result: a provenance tag plus the reported place. -/
structure BestLocation where
  source : String
  country : String
  city : String
deriving DecidableEq

/-- Transcription of `determineBestLocation` from the +location revision
(`part_001`). -/
def determineBestLocation (locationData : LocationData) : BestLocation :=
  if jsNumTruthy locationData.gps_latitude && jsNumTruthy locationData.gps_longitude then
    ⟨"gps", locationData.ip_country, "GPS Location"⟩
  else if !(locationData.browser_timezone == "") && !(locationData.browser_timezone == "Unknown") then
    ⟨"browser", locationData.ip_country, locationData.ip_city⟩
  else
    ⟨"ip", locationData.ip_country, locationData.ip_city⟩

lemma jsNumTruthy_iff (v : Option ℚ) :
    jsNumTruthy v = true ↔ ∃ q, v = some q ∧ q ≠ 0 := by
  cases v with
  | none => simp [jsNumTruthy]
  | some q =>
    simp only [jsNumTruthy, Bool.not_eq_true']
    constructor
    · intro h
      exact ⟨q, rfl, by simpa using h⟩
    · rintro ⟨q', hq', hne⟩
      cases hq'
      simpa using hne

/-- C4: the reconciler applies exactly the claimed priority order — truthy
GPS latitude and longitude give source `"gps"` with the IP country and the
fixed city `"GPS Location"`; otherwise a present, non-`"Unknown"` browser
timezone gives source `"browser"` with the IP country and city; otherwise
source `"ip"` with the IP country and city. -/
theorem determineBestLocation_priority (ld : LocationData) :
    ((∃ a, ld.gps_latitude = some a ∧ a ≠ 0) →
     (∃ b, ld.gps_longitude = some b ∧ b ≠ 0) →
      determineBestLocation ld = ⟨"gps", ld.ip_country, "GPS Location"⟩) ∧
    (¬((∃ a, ld.gps_latitude = some a ∧ a ≠ 0) ∧ (∃ b, ld.gps_longitude = some b ∧ b ≠ 0)) →
     ld.browser_timezone ≠ "" → ld.browser_timezone ≠ "Unknown" →
      determineBestLocation ld = ⟨"browser", ld.ip_country, ld.ip_city⟩) ∧
    (¬((∃ a, ld.gps_latitude = some a ∧ a ≠ 0) ∧ (∃ b, ld.gps_longitude = some b ∧ b ≠ 0)) →
     (ld.browser_timezone = "" ∨ ld.browser_timezone = "Unknown") →
      determineBestLocation ld = ⟨"ip", ld.ip_country, ld.ip_city⟩) := by
  refine ⟨?_, ?_, ?_⟩
  · intro ha hb
    have h : (jsNumTruthy ld.gps_latitude && jsNumTruthy ld.gps_longitude) = true := by
      rw [Bool.and_eq_true, jsNumTruthy_iff, jsNumTruthy_iff]
      exact ⟨ha, hb⟩
    simp [determineBestLocation, h]
  · intro hgps h1 h2
    have h : (jsNumTruthy ld.gps_latitude && jsNumTruthy ld.gps_longitude) = false := by
      rw [Bool.eq_false_iff]
      intro hc
      rw [Bool.and_eq_true, jsNumTruthy_iff, jsNumTruthy_iff] at hc
      exact hgps hc
    have hb : (!(ld.browser_timezone == "") && !(ld.browser_timezone == "Unknown")) = true := by
      simp [h1, h2]
    simp [determineBestLocation, h, hb]
  · intro hgps hbt
    have h : (jsNumTruthy ld.gps_latitude && jsNumTruthy ld.gps_longitude) = false := by
      rw [Bool.eq_false_iff]
      intro hc
      rw [Bool.and_eq_true, jsNumTruthy_iff, jsNumTruthy_iff] at hc
      exact hgps hc
    have hb : (!(ld.browser_timezone == "") && !(ld.browser_timezone == "Unknown")) = false := by
      rcases hbt with h1 | h1 <;> simp [h1]
    simp [determineBestLocation, h, hb]

/-- Witness for C4, exercising all three branches on concrete bundles
(GPS coordinates 37 and -122, then a browser timezone, then neither). -/
theorem determineBestLocation_priority_witness :
    determineBestLocation ⟨"US", "SF", "CA", "PST", some 37, some (-122), none, "Unknown", "en"⟩
      = ⟨"gps", "US", "GPS Location"⟩ ∧
    determineBestLocation ⟨"US", "SF", "CA", "PST", none, none, none, "America/Los_Angeles", "en"⟩
      = ⟨"browser", "US", "SF"⟩ ∧
    determineBestLocation ⟨"US", "SF", "CA", "PST", none, none, none, "Unknown", "en"⟩
      = ⟨"ip", "US", "SF"⟩ :=
  ⟨(determineBestLocation_priority _).1 ⟨37, rfl, by norm_num⟩ ⟨-122, rfl, by norm_num⟩,
   (determineBestLocation_priority _).2.1
     (by rintro ⟨⟨a, ha, _⟩, _⟩; exact Option.noConfusion ha) (by decide) (by decide),
   (determineBestLocation_priority _).2.2
     (by rintro ⟨⟨a, ha, _⟩, _⟩; exact Option.noConfusion ha) (Or.inr rfl)⟩

/-- The `location_source` values enumerated in the stored schema's comment
(`server.js` line 48). -/
def locationSourceComment : List String :=
  ["gps", "ip", "browser", "combined"]

/-- C10: the reconciler's source tag is always one of `"gps"`,
`"browser"`, `"ip"` — the `"combined"` tag enumerated in the schema
comment is never produced — and the returned country equals the
IP-derived country in every branch. -/
theorem determineBestLocation_invariants (ld : LocationData) :
    ((determineBestLocation ld).source = "gps" ∨
     (determineBestLocation ld).source = "browser" ∨
     (determineBestLocation ld).source = "ip") ∧
    (determineBestLocation ld).source ∈ locationSourceComment ∧
    (determineBestLocation ld).source ≠ "combined" ∧
    (determineBestLocation ld).country = ld.ip_country := by
  unfold determineBestLocation
  split_ifs <;> simp [locationSourceComment]

/-! ## Device/user-agent classifier (`parseDeviceInfo`, `server.js` lines 175-286)

The JavaScript function builds one `deviceInfo` object and then mutates it
in four commented sections (device type, operating system, browser,
brand/model).  The transcription mirrors that shape: `baseDeviceInfo`
builds the initial object and each `apply…` helper transcribes one
section's mutations as a functional update. -/

/-- The structured device profile the classifier produces. -/
structure DeviceInfo where
  userAgent : String
  platform : String
  isMobile : Bool
  isTablet : Bool
  isDesktop : Bool
  deviceType : String
  deviceBrand : String
  deviceModel : String
  operatingSystem : String
  osVersion : String
  browser : String
  browserVersion : String
  screenWidth : Option ℚ
  screenHeight : Option ℚ
  colorDepth : Option ℚ
  pixelRatio : Option ℚ
  connectionType : String
  isOnline : Bool
  touchSupport : Bool
  cookiesEnabled : Bool
  javaEnabled : Bool
  batteryLevel : Option ℚ
  batteryCharging : Option Bool
  hasGyroscope : Bool
  hasAccelerometer : Bool
  hasCompass : Bool
deriving DecidableEq

/-- Character class `[0-9.]` used by the version-capture patterns. -/
def digitDot (c : Char) : Bool :=
  c.isDigit || c == '.'

/-- Character class `[0-9_]` used by the iOS/macOS version patterns. -/
def digitUnderscore (c : Char) : Bool :=
  c.isDigit || c == '_'

/-- First match of the pattern `lit([class]+)` in a character list: scan
left to right for an occurrence of the literal followed by at least one
character of the class, and capture the maximal run — the semantics of the
JavaScript `ua.match(/lit([class]+)/)` calls in the classifier. -/
def findCapture (lit : List Char) (allowed : Char → Bool) : List Char → Option (List Char)
  | [] => none
  | c :: rest =>
    if lit.isPrefixOf (c :: rest) then
      let run := ((c :: rest).drop lit.length).takeWhile allowed
      if run.isEmpty then findCapture lit allowed rest else some run
    else findCapture lit allowed rest

/-- Version extraction on strings, wrapping `findCapture`. -/
def extractVersion (ua lit : String) (allowed : Char → Bool) : Option String :=
  (findCapture lit.data allowed ua.data).map (fun l => ⟨l⟩)

/-- Model of JavaScript `s.replace(/_/g, '.')`. -/
def underscoresToDots (s : String) : String :=
  ⟨s.data.map (fun c => if c == '_' then '.' else c)⟩

/-- The initial `deviceInfo` object (defaults plus the client-reported
capability bundle), `server.js` lines 177-208. -/
def baseDeviceInfo (userAgent : String) (deviceData : DeviceData) : DeviceInfo :=
  { userAgent := userAgent
    platform := orElseStr deviceData.platform "Unknown"
    isMobile := deviceData.isMobile.getD false
    isTablet := deviceData.isTablet.getD false
    isDesktop := !(deviceData.isMobile.getD false) && !(deviceData.isTablet.getD false)
    deviceType := "desktop"
    deviceBrand := "Unknown"
    deviceModel := "Unknown"
    operatingSystem := "Unknown"
    osVersion := "Unknown"
    browser := "Unknown"
    browserVersion := "Unknown"
    screenWidth := jsNumOrNull deviceData.screenWidth
    screenHeight := jsNumOrNull deviceData.screenHeight
    colorDepth := jsNumOrNull deviceData.colorDepth
    pixelRatio := jsNumOrNull deviceData.pixelRatio
    connectionType := orElseStr deviceData.connectionType "Unknown"
    isOnline := deviceData.isOnline.getD true
    touchSupport := deviceData.touchSupport.getD false
    cookiesEnabled := deviceData.cookiesEnabled.getD true
    javaEnabled := deviceData.javaEnabled.getD false
    batteryLevel := jsNumOrNull deviceData.batteryLevel
    batteryCharging := jsBoolOrNull deviceData.batteryCharging
    hasGyroscope := deviceData.hasGyroscope.getD false
    hasAccelerometer := deviceData.hasAccelerometer.getD false
    hasCompass := deviceData.hasCompass.getD false }

/-- "Determine device type" section, `server.js` lines 210-215. -/
def applyDeviceType (deviceData : DeviceData) (d : DeviceInfo) : DeviceInfo :=
  if deviceData.isMobile.getD false then { d with deviceType := "mobile" }
  else if deviceData.isTablet.getD false then { d with deviceType := "tablet" }
  else d

/-- "Parse Operating System" section, `server.js` lines 217-237; `ua` is
the lower-cased user-agent. -/
def applyOS (ua : String) (d : DeviceInfo) : DeviceInfo :=
  if jsIncludes ua "android" then
    let d := { d with operatingSystem := "Android" }
    match extractVersion ua "android " digitDot with
    | some v => { d with osVersion := v }
    | none => d
  else if jsIncludes ua "iphone" || jsIncludes ua "ipad" then
    let d := { d with operatingSystem := if jsIncludes ua "ipad" then "iPadOS" else "iOS" }
    match extractVersion ua "os " digitUnderscore with
    | some v => { d with osVersion := underscoresToDots v }
    | none => d
  else if jsIncludes ua "windows" then
    let d := { d with operatingSystem := "Windows" }
    if jsIncludes ua "windows nt 10.0" then { d with osVersion := "10/11" }
    else if jsIncludes ua "windows nt 6.3" then { d with osVersion := "8.1" }
    else if jsIncludes ua "windows nt 6.1" then { d with osVersion := "7" }
    else d
  else if jsIncludes ua "mac os" then
    let d := { d with operatingSystem := "macOS" }
    match extractVersion ua "mac os x " digitUnderscore with
    | some v => { d with osVersion := underscoresToDots v }
    | none => d
  else if jsIncludes ua "linux" then { d with operatingSystem := "Linux" }
  else d

/-- "Parse Browser" section, `server.js` lines 239-256; `ua` is the
lower-cased user-agent. -/
def applyBrowser (ua : String) (d : DeviceInfo) : DeviceInfo :=
  if jsIncludes ua "chrome" && !(jsIncludes ua "edg") then
    let d := { d with browser := "Chrome" }
    match extractVersion ua "chrome/" digitDot with
    | some v => { d with browserVersion := v }
    | none => d
  else if jsIncludes ua "safari" && !(jsIncludes ua "chrome") then
    let d := { d with browser := "Safari" }
    match extractVersion ua "version/" digitDot with
    | some v => { d with browserVersion := v }
    | none => d
  else if jsIncludes ua "firefox" then
    let d := { d with browser := "Firefox" }
    match extractVersion ua "firefox/" digitDot with
    | some v => { d with browserVersion := v }
    | none => d
  else if jsIncludes ua "edg" then
    let d := { d with browser := "Microsoft Edge" }
    match extractVersion ua "edg/" digitDot with
    | some v => { d with browserVersion := v }
    | none => d
  else d

/-- "Parse Device Brand and Model" section, `server.js` lines 258-283;
`ua` is the lower-cased user-agent.  Note that the iPhone model is only
assigned inside the `ua.includes('iphone os')` guard. -/
def applyBrandModel (ua : String) (d : DeviceInfo) : DeviceInfo :=
  if jsIncludes ua "iphone" then
    let d := { d with deviceBrand := "Apple" }
    if jsIncludes ua "iphone os" then
      if jsIncludes ua "iphone14" then { d with deviceModel := "iPhone 14" }
      else if jsIncludes ua "iphone13" then { d with deviceModel := "iPhone 13" }
      else if jsIncludes ua "iphone12" then { d with deviceModel := "iPhone 12" }
      else { d with deviceModel := "iPhone" }
    else d
  else if jsIncludes ua "ipad" then
    { d with deviceBrand := "Apple", deviceModel := "iPad" }
  else if jsIncludes ua "samsung" then
    let d := { d with deviceBrand := "Samsung" }
    if jsIncludes ua "galaxy" then { d with deviceModel := "Galaxy" } else d
  else if jsIncludes ua "pixel" then
    { d with deviceBrand := "Google", deviceModel := "Pixel" }
  else if jsIncludes ua "oneplus" then { d with deviceBrand := "OnePlus" }
  else if jsIncludes ua "xiaomi" then { d with deviceBrand := "Xiaomi" }
  else if jsIncludes ua "huawei" then { d with deviceBrand := "Huawei" }
  else d

/-- Transcription of `parseDeviceInfo` from `server.js`: the initial
object followed by the four mutation sections in source order. -/
def parseDeviceInfo (userAgent : String) (deviceData : DeviceData) : DeviceInfo :=
  let ua := jsToLower userAgent
  applyBrandModel ua
    (applyBrowser ua
      (applyOS ua
        (applyDeviceType deviceData (baseDeviceInfo userAgent deviceData))))

/-! ### Browser classification (C7) -/

/-- The Chrome predicate from the source: `"chrome"` present and `"edg"`
absent (on the lower-cased user-agent). -/
def chromeHit (ua : String) : Bool :=
  jsIncludes ua "chrome" && !(jsIncludes ua "edg")

/-- The Safari predicate from the source: `"safari"` present and
`"chrome"` absent. -/
def safariHit (ua : String) : Bool :=
  jsIncludes ua "safari" && !(jsIncludes ua "chrome")

/-- The Firefox predicate from the source: `"firefox"` present (no
exclusion). -/
def firefoxHit (ua : String) : Bool :=
  jsIncludes ua "firefox"

/-- The Edge predicate from the source: `"edg"` present (no exclusion). -/
def edgeHit (ua : String) : Bool :=
  jsIncludes ua "edg"

/-- The first-match chain the browser section actually implements, in
source order: Chrome, Safari, Firefox, Microsoft Edge. -/
def browserChain (ua : String) : String :=
  if chromeHit ua then "Chrome"
  else if safariHit ua then "Safari"
  else if firefoxHit ua then "Firefox"
  else if edgeHit ua then "Microsoft Edge"
  else "Unknown"

/-- The same four checks with the Firefox check moved first: if the
substring exclusions really were the sole disambiguation, reordering the
checks could not change any outcome. -/
def browserChainFirefoxFirst (ua : String) : String :=
  if firefoxHit ua then "Firefox"
  else if chromeHit ua then "Chrome"
  else if safariHit ua then "Safari"
  else if edgeHit ua then "Microsoft Edge"
  else "Unknown"

lemma applyBrandModel_browser (ua : String) (d : DeviceInfo) :
    (applyBrandModel ua d).browser = d.browser := by
  unfold applyBrandModel
  split_ifs <;> rfl

lemma applyOS_browser (ua : String) (d : DeviceInfo) :
    (applyOS ua d).browser = d.browser := by
  unfold applyOS
  split_ifs <;> (try split) <;> rfl

lemma applyDeviceType_browser (dd : DeviceData) (d : DeviceInfo) :
    (applyDeviceType dd d).browser = d.browser := by
  unfold applyDeviceType
  split_ifs <;> rfl

lemma applyBrowser_browser (ua : String) (d : DeviceInfo) :
    (applyBrowser ua d).browser =
      if chromeHit ua then "Chrome"
      else if safariHit ua then "Safari"
      else if firefoxHit ua then "Firefox"
      else if edgeHit ua then "Microsoft Edge"
      else d.browser := by
  unfold applyBrowser chromeHit safariHit firefoxHit edgeHit
  split_ifs <;> (try split) <;> rfl

lemma parseDeviceInfo_browser (ua : String) (dd : DeviceData) :
    (parseDeviceInfo ua dd).browser = browserChain (jsToLower ua) := by
  unfold parseDeviceInfo browserChain
  rw [applyBrandModel_browser, applyBrowser_browser, applyOS_browser,
    applyDeviceType_browser]
  rfl

/-- C7 counterexample: the user-agent `"mozilla chrome/9 firefox/8"`
satisfies both the Chrome predicate and the Firefox predicate (the stated
exclusions do not separate them), and only the source's branch order picks
`"Chrome"`: moving the Firefox check first yields `"Firefox"`.  So the
exclusions are not the sole disambiguation and a branch-priority ordering
beyond them is load-bearing. -/
theorem browser_checks_not_independent :
    chromeHit (jsToLower "mozilla chrome/9 firefox/8") = true ∧
    firefoxHit (jsToLower "mozilla chrome/9 firefox/8") = true ∧
    (parseDeviceInfo "mozilla chrome/9 firefox/8" emptyDeviceData).browser = "Chrome" ∧
    browserChainFirefoxFirst (jsToLower "mozilla chrome/9 firefox/8") = "Firefox" := by
  refine ⟨by decide, by decide, ?_, by decide⟩
  rw [parseDeviceInfo_browser]
  decide

/-- C7 (amended): the four browser checks form a first-match priority
chain in source order (Chrome, Safari, Firefox, Microsoft Edge); the
substring exclusions make the Chrome/Safari and Chrome/Edge pairs mutually
exclusive, but a user-agent may satisfy both the Chrome and Firefox
predicates (or both Safari and Firefox/Edge), and then the chain order —
not an exclusion — resolves the outcome.  The classification outcome is
still fully determined by which of the four predicates hold. -/
theorem browser_classification_chain :
    (∀ ua dd, (parseDeviceInfo ua dd).browser = browserChain (jsToLower ua)) ∧
    (∀ ua₁ ua₂ dd₁ dd₂,
      chromeHit (jsToLower ua₁) = chromeHit (jsToLower ua₂) →
      safariHit (jsToLower ua₁) = safariHit (jsToLower ua₂) →
      firefoxHit (jsToLower ua₁) = firefoxHit (jsToLower ua₂) →
      edgeHit (jsToLower ua₁) = edgeHit (jsToLower ua₂) →
      (parseDeviceInfo ua₁ dd₁).browser = (parseDeviceInfo ua₂ dd₂).browser) := by
  refine ⟨parseDeviceInfo_browser, ?_⟩
  intro ua₁ ua₂ dd₁ dd₂ h1 h2 h3 h4
  rw [parseDeviceInfo_browser, parseDeviceInfo_browser]
  unfold browserChain
  rw [h1, h2, h3, h4]

/-- Witness for C7 (amended), applying both conjuncts at concrete
user-agents whose predicate quadruples agree. -/
theorem browser_classification_chain_witness :
    (parseDeviceInfo "Chrome/120.0 Safari/537" emptyDeviceData).browser
      = browserChain (jsToLower "Chrome/120.0 Safari/537") ∧
    (parseDeviceInfo "chrome/9 x" emptyDeviceData).browser
      = (parseDeviceInfo "chrome/10 y" emptyDeviceData).browser :=
  ⟨browser_classification_chain.1 "Chrome/120.0 Safari/537" emptyDeviceData,
   browser_classification_chain.2 "chrome/9 x" "chrome/10 y" emptyDeviceData emptyDeviceData
     (by decide) (by decide) (by decide) (by decide)⟩

/-! ### Brand and model classification (C8) -/

lemma applyOS_brand (ua : String) (d : DeviceInfo) :
    (applyOS ua d).deviceBrand = d.deviceBrand := by
  unfold applyOS
  split_ifs <;> (try split) <;> rfl

lemma applyOS_model (ua : String) (d : DeviceInfo) :
    (applyOS ua d).deviceModel = d.deviceModel := by
  unfold applyOS
  split_ifs <;> (try split) <;> rfl

lemma applyBrowser_brand (ua : String) (d : DeviceInfo) :
    (applyBrowser ua d).deviceBrand = d.deviceBrand := by
  unfold applyBrowser
  split_ifs <;> (try split) <;> rfl

lemma applyBrowser_model (ua : String) (d : DeviceInfo) :
    (applyBrowser ua d).deviceModel = d.deviceModel := by
  unfold applyBrowser
  split_ifs <;> (try split) <;> rfl

lemma applyDeviceType_brand (dd : DeviceData) (d : DeviceInfo) :
    (applyDeviceType dd d).deviceBrand = d.deviceBrand := by
  unfold applyDeviceType
  split_ifs <;> rfl

lemma applyDeviceType_model (dd : DeviceData) (d : DeviceInfo) :
    (applyDeviceType dd d).deviceModel = d.deviceModel := by
  unfold applyDeviceType
  split_ifs <;> rfl

/-- C8 counterexample: the user-agent `"iphone"` contains `"iphone"` but
not `"iphone os"`, so the classifier leaves the model at its default
`"Unknown"` instead of the generic `"iPhone"` the claim asserts (the model
assignment sits behind an `ua.includes('iphone os')` guard the claim
omits). -/
theorem iphone_model_needs_iphone_os :
    (parseDeviceInfo "iphone" emptyDeviceData).deviceBrand = "Apple" ∧
    (parseDeviceInfo "iphone" emptyDeviceData).deviceModel = "Unknown" ∧
    (parseDeviceInfo "iphone" emptyDeviceData).deviceModel ≠ "iPhone" := by
  refine ⟨by decide, by decide, by decide⟩

/-- C8 (amended): for a user-agent containing `"iphone"` the brand is
`"Apple"`, and the model is assigned only when the user-agent also
contains `"iphone os"`: then the fixed generation substrings `"iphone14"`,
`"iphone13"`, `"iphone12"` select `"iPhone 14"`, `"iPhone 13"`,
`"iPhone 12"`, and otherwise the generic `"iPhone"`; without
`"iphone os"` the model keeps its default `"Unknown"`.  For a user-agent
containing `"ipad"` and not `"iphone"`, brand `"Apple"` and model
`"iPad"`. -/
lemma applyBrandModel_iphone (ua : String) (d : DeviceInfo)
    (h : jsIncludes ua "iphone" = true) :
    (applyBrandModel ua d).deviceBrand = "Apple" ∧
    (applyBrandModel ua d).deviceModel =
      (if jsIncludes ua "iphone os" then
        (if jsIncludes ua "iphone14" then "iPhone 14"
         else if jsIncludes ua "iphone13" then "iPhone 13"
         else if jsIncludes ua "iphone12" then "iPhone 12"
         else "iPhone")
       else d.deviceModel) := by
  unfold applyBrandModel
  split_ifs <;> simp_all

lemma applyBrandModel_ipad (ua : String) (d : DeviceInfo)
    (h1 : jsIncludes ua "iphone" = false) (h2 : jsIncludes ua "ipad" = true) :
    (applyBrandModel ua d).deviceBrand = "Apple" ∧
    (applyBrandModel ua d).deviceModel = "iPad" := by
  unfold applyBrandModel
  split_ifs <;> simp_all

theorem apple_brand_model_classification (ua : String) (dd : DeviceData) :
    (jsIncludes (jsToLower ua) "iphone" = true →
      (parseDeviceInfo ua dd).deviceBrand = "Apple" ∧
      (parseDeviceInfo ua dd).deviceModel =
        (if jsIncludes (jsToLower ua) "iphone os" then
          (if jsIncludes (jsToLower ua) "iphone14" then "iPhone 14"
           else if jsIncludes (jsToLower ua) "iphone13" then "iPhone 13"
           else if jsIncludes (jsToLower ua) "iphone12" then "iPhone 12"
           else "iPhone")
         else "Unknown")) ∧
    (jsIncludes (jsToLower ua) "iphone" = false → jsIncludes (jsToLower ua) "ipad" = true →
      (parseDeviceInfo ua dd).deviceBrand = "Apple" ∧
      (parseDeviceInfo ua dd).deviceModel = "iPad") := by
  have hbase_m : (applyBrowser (jsToLower ua) (applyOS (jsToLower ua)
      (applyDeviceType dd (baseDeviceInfo ua dd)))).deviceModel = "Unknown" := by
    rw [applyBrowser_model, applyOS_model, applyDeviceType_model]
    rfl
  have hpd : parseDeviceInfo ua dd =
      applyBrandModel (jsToLower ua)
        (applyBrowser (jsToLower ua)
          (applyOS (jsToLower ua) (applyDeviceType dd (baseDeviceInfo ua dd)))) := rfl
  constructor
  · intro hiphone
    rw [hpd]
    obtain ⟨h1, h2⟩ := applyBrandModel_iphone _ _ hiphone
    refine ⟨h1, ?_⟩
    rw [h2, hbase_m]
  · intro hiphone hipad
    rw [hpd]
    exact applyBrandModel_ipad _ _ hiphone hipad

/-- Witness for C8 (amended): a user-agent with the `"iphone os"` marker
gets the generic `"iPhone"` model, and an iPad user-agent gets
brand/model `"Apple"`/`"iPad"`. -/
theorem apple_brand_model_classification_witness :
    ((parseDeviceInfo "iphone os 16_0" emptyDeviceData).deviceBrand = "Apple" ∧
     (parseDeviceInfo "iphone os 16_0" emptyDeviceData).deviceModel = "iPhone") ∧
    ((parseDeviceInfo "ipad" emptyDeviceData).deviceBrand = "Apple" ∧
     (parseDeviceInfo "ipad" emptyDeviceData).deviceModel = "iPad") :=
  ⟨(apple_brand_model_classification "iphone os 16_0" emptyDeviceData).1 (by decide),
   (apple_brand_model_classification "ipad" emptyDeviceData).2 (by decide) (by decide)⟩

/-! ## Submission handler (`POST /send-message`, `server.js` lines 293-390)

The persistent store is an external collaborator; the handler is modelled
as a pure function from the request, the geolocation fetch oracle and the
server clock to its HTTP response plus the list of `Message` documents it
inserts.  The response type distinguishes the success payload, the
400-equivalent validation rejections, and the 500-equivalent catch-all of
the handler's `catch` block.

After validation passes, the canonical handler resolves the client IP,
reads the user-agent, awaits the geolocation lookup and builds the
location bundle (lines 320-342) — and then line 345 calls
`determineBestLocation`, an identifier `server.js` never defines (its
definition lives only in the +location revision's module, and `server.js`
imports nothing local).  That call throws a ReferenceError inside the
`try`, before `parseDeviceInfo` (line 351) and before `newMessage.save()`
(line 361), so the `catch` (line 383) answers with the 500-equivalent
`{success:false, error:'Failed to send message. Please try again.'}` and
no document is inserted.  The success path of the source text is
unreachable; the model reflects that. -/

/-- The persisted location sub-record of the canonical schema: the raw
bundle plus the reconciled fields (`server.js` lines 29-49). -/
structure StoredLocation where
  data : LocationData
  final_country : String
  final_city : String
  location_source : String
deriving DecidableEq

/-- The persisted `Message` document of the canonical schema (`server.js`
lines 19-95).  With the missing reconciler, the canonical handler never
actually constructs one (its insert is unreachable); the type gives the
handler's insert list its schema. -/
structure MessageRec where
  content : String
  ipAddress : String
  location : StoredLocation
  deviceInfo : DeviceInfo
  timestamp : Nat
deriving DecidableEq

/-- The handler's JSON response: the success payload (confirmation text,
reconciled location, device summary — present in the source text but
unreachable), a 400-equivalent validation rejection, or the
500-equivalent catch-all of the `catch` block. -/
inductive Resp where
  | ok (message : String) (locCity locCountry locSource : String)
       (devType devBrand devModel devOs devBrowser : String)
  | badRequest (error : String)
  | serverError (error : String)
deriving DecidableEq

/-- Transcription of the `POST /send-message` handler from `server.js`:
the two validation rejections, and — on every input that passes them —
the ReferenceError at the undefined `determineBestLocation` (line 345),
caught and answered as the 500-equivalent catch-all with no insert.  (The
IP resolution, user-agent read and geolocation lookup of lines 320-342 do
execute first, but the crash discards their results, so they do not
appear in the response/insert function.) -/
def sendMessage (req : Request) (fetchO : FetchOutcome) (now : Nat) :
    Resp × List MessageRec :=
  let message := req.body.message
  if message = none ∨ message.getD "" = "" ∨ (jsTrim (message.getD "")).length = 0 then
    (.badRequest "Message cannot be empty", [])
  else if (message.getD "").length > 1000 then
    (.badRequest "Message too long (max 1000 characters)", [])
  else
    (.serverError "Failed to send message. Please try again.", [])

lemma jsTrim_empty : jsTrim "" = "" := rfl

lemma string_length_eq_zero_iff (s : String) : s.length = 0 ↔ s = "" := by
  constructor
  · intro h
    cases s with
    | mk data =>
      have hd : data = [] := List.length_eq_zero.mp h
      subst hd
      rfl
  · intro h
    subst h
    rfl

lemma jsTrim_length_zero_iff (s : String) : (jsTrim s).length = 0 ↔ jsTrim s = "" :=
  string_length_eq_zero_iff (jsTrim s)

/-- Any message that passes validation reaches the missing-reconciler
crash: the canonical handler answers the 500-equivalent catch-all and
inserts nothing. -/
lemma sendMessage_valid_eq_catchall (req : Request) (o : FetchOutcome) (now : Nat)
    (m : String) (hm : req.body.message = some m)
    (h1 : 1 ≤ (jsTrim m).length) (h3 : m.length ≤ 1000) :
    sendMessage req o now = (.serverError "Failed to send message. Please try again.", []) := by
  have hc1 : ¬(some m = none ∨ m = "" ∨ (jsTrim m).length = 0) := by
    rintro (h | h | h)
    · exact Option.noConfusion h
    · rw [h] at h1
      exact absurd h1 (by decide)
    · omega
  have hc2 : ¬(m.length > 1000) := by omega
  simp only [sendMessage, hm, Option.getD_some]
  rw [if_neg hc1, if_neg hc2]

/-- The concrete no-headers request used by the witnesses below. -/
def plainRequest (m : Option String) : Request :=
  { xForwardedFor := none, xRealIP := none, xClientIP := none
    connectionRemoteAddress := none, socketRemoteAddress := none, reqIp := none
    userAgent := none
    body := { message := m, gps_latitude := none, gps_longitude := none
              gps_accuracy := none, browser_timezone := none
              browser_language := none, deviceInfo := none } }

/-- C1 (code bug): the claim states the spec's clear intent — a message
with `1 ≤ len(trim(m)) ≤ 1000` and `len(m) ≤ 1000` succeeds with
`success:true` and one inserted record whose content is `trim(m)` — but
`server.js` never defines `determineBestLocation` (only the +location
revision's module does), so every such request throws a ReferenceError at
line 345 and the canonical handler answers the 500-equivalent
`{success:false}` catch-all with zero inserts: the claimed success path is
unreachable. -/
theorem valid_message_hits_missing_reconciler (req : Request) (o : FetchOutcome) (now : Nat)
    (m : String) (hm : req.body.message = some m)
    (h1 : 1 ≤ (jsTrim m).length) (h2 : (jsTrim m).length ≤ 1000)
    (h3 : m.length ≤ 1000) :
    sendMessage req o now = (.serverError "Failed to send message. Please try again.", []) :=
  sendMessage_valid_eq_catchall req o now m hm h1 h3

/-- Witness for C1's failing input: the valid message `"hello"` is
answered with the 500-equivalent catch-all and nothing is inserted. -/
theorem valid_message_hits_missing_reconciler_witness :
    (1 ≤ (jsTrim "hello").length ∧ (jsTrim "hello").length ≤ 1000 ∧
     "hello".length ≤ 1000) ∧
    sendMessage (plainRequest (some "hello")) .notOk 0
      = (.serverError "Failed to send message. Please try again.", []) :=
  ⟨by decide,
   valid_message_hits_missing_reconciler (plainRequest (some "hello")) .notOk 0
     "hello" rfl (by decide) (by decide) (by decide)⟩

/-- C2: `POST /send-message` answers a 400-equivalent rejection
(`{success:false, error:…}`) with no record inserted exactly when the
message is missing or trims to empty, or when the *untrimmed* message
exceeds 1000 characters; the missing/empty case yields the empty-message
error, and otherwise an untrimmed length over 1000 yields the too-long
error.  On every other input the canonical revision answers the
500-equivalent catch-all (C1's code bug), which is not a 400-equivalent
rejection, so the biconditional is over the faithful handler. -/
theorem rejection_exactly_on_invalid_message (req : Request) (o : FetchOutcome) (now : Nat) :
    (((∃ e, (sendMessage req o now).1 = Resp.badRequest e) ∧ (sendMessage req o now).2 = []) ↔
      (req.body.message = none ∨ jsTrim (req.body.message.getD "") = "" ∨
       (req.body.message.getD "").length > 1000)) ∧
    ((req.body.message = none ∨ jsTrim (req.body.message.getD "") = "") →
      sendMessage req o now = (.badRequest "Message cannot be empty", [])) ∧
    (¬(req.body.message = none ∨ jsTrim (req.body.message.getD "") = "") →
      (req.body.message.getD "").length > 1000 →
      sendMessage req o now = (.badRequest "Message too long (max 1000 characters)", [])) := by
  have hgd0 : req.body.message.getD "" = "" → jsTrim (req.body.message.getD "") = "" := by
    intro h
    rw [h]
    rfl
  simp only [sendMessage]
  split_ifs with h1 h2
  · refine ⟨?_, ?_, ?_⟩
    · constructor
      · intro _
        rcases h1 with h | h | h
        · exact Or.inl h
        · exact Or.inr (Or.inl (hgd0 h))
        · exact Or.inr (Or.inl ((jsTrim_length_zero_iff _).mp h))
      · intro _
        exact ⟨⟨"Message cannot be empty", rfl⟩, rfl⟩
    · intro _
      rfl
    · intro hne _
      exfalso
      rcases h1 with h | h | h
      · exact hne (Or.inl h)
      · exact hne (Or.inr (hgd0 h))
      · exact hne (Or.inr ((jsTrim_length_zero_iff _).mp h))
  · refine ⟨?_, ?_, ?_⟩
    · constructor
      · intro _
        exact Or.inr (Or.inr h2)
      · intro _
        exact ⟨⟨"Message too long (max 1000 characters)", rfl⟩, rfl⟩
    · intro hc
      exfalso
      rcases hc with h | h
      · exact h1 (Or.inl h)
      · exact h1 (Or.inr (Or.inr ((jsTrim_length_zero_iff _).mpr h)))
    · intro _ _
      rfl
  · refine ⟨?_, ?_, ?_⟩
    · constructor
      · rintro ⟨⟨e, he⟩, -⟩
        exact he.elim
      · rintro (h | h | h)
        · exact absurd (Or.inl h) h1
        · exact absurd (Or.inr (Or.inr ((jsTrim_length_zero_iff _).mpr h))) h1
        · exact absurd h h2
    · intro hc
      exfalso
      rcases hc with h | h
      · exact h1 (Or.inl h)
      · exact h1 (Or.inr (Or.inr ((jsTrim_length_zero_iff _).mpr h)))
    · intro _ h
      exact absurd h h2

set_option maxRecDepth 40000 in
/-- Witness for C2, applying the theorem at a whitespace-only message
(rejected with the empty-message error) and at a 1001-character message
(rejected with the too-long error). -/
theorem rejection_exactly_on_invalid_message_witness :
    sendMessage (plainRequest (some "   ")) .notOk 0
      = (.badRequest "Message cannot be empty", []) ∧
    sendMessage (plainRequest (some ⟨List.replicate 1001 'a'⟩)) .notOk 0
      = (.badRequest "Message too long (max 1000 characters)", []) :=
  ⟨(rejection_exactly_on_invalid_message (plainRequest (some "   ")) .notOk 0).2.1
     (Or.inr (by decide)),
   (rejection_exactly_on_invalid_message
      (plainRequest (some ⟨List.replicate 1001 'a'⟩)) .notOk 0).2.2
     (by decide) (by decide)⟩

/-- C5 (code bug): the adapter half of the claim holds — whenever the
external lookup is actually issued and fails in any way the adapter
returns the fixed Unknown sentinel instead of propagating the failure —
but the submission half states the spec's intent, not the code: because
of the missing `determineBestLocation` (see C1), a valid submission whose
geolocation lookup failed is not persisted and does not succeed; it is
answered with the 500-equivalent catch-all and zero inserts. -/
theorem geo_failure_sentinel_but_submission_fails (ip : String) (o : FetchOutcome)
    (req : Request) (now : Nat) (m : String)
    (hfail : o.isFailure = true) :
    ((getIPGeolocation ip o).issuedCall = true →
      (getIPGeolocation ip o).result = unknownSentinel) ∧
    (req.body.message = some m → 1 ≤ (jsTrim m).length → m.length ≤ 1000 →
      sendMessage req o now
        = (.serverError "Failed to send message. Please try again.", [])) := by
  constructor
  · intro hcall
    unfold getIPGeolocation at hcall ⊢
    split_ifs at hcall ⊢
    cases o with
    | ok d => exact absurd hfail (by simp [FetchOutcome.isFailure])
    | notOk => rfl
    | networkError => rfl
    | malformedPayload => rfl
  · intro hm h1 h3
    exact sendMessage_valid_eq_catchall req o now m hm h1 h3

/-- Witness for C5's failing input: a failed lookup on the public IP
`"8.8.8.8"` yields the Unknown sentinel, while the valid submission
`"hi"` under that failing lookup is answered with the 500-equivalent
catch-all and nothing is inserted. -/
theorem geo_failure_sentinel_but_submission_fails_witness :
    ((getIPGeolocation "8.8.8.8" .notOk).issuedCall = true →
      (getIPGeolocation "8.8.8.8" .notOk).result = unknownSentinel) ∧
    sendMessage (plainRequest (some "hi")) .notOk 0
      = (.serverError "Failed to send message. Please try again.", []) :=
  ⟨(geo_failure_sentinel_but_submission_fails "8.8.8.8" .notOk
      (plainRequest (some "hi")) 0 "hi" rfl).1,
   (geo_failure_sentinel_but_submission_fails "8.8.8.8" .notOk
      (plainRequest (some "hi")) 0 "hi" rfl).2 rfl (by decide) (by decide)⟩

/-! ## The two earlier revisions (C9)

The bare message-only revision (`part_000`) and the +location revision
(`part_001`) are transcribed here, each from its own file, so that their
shared surface can be compared with the canonical revision: the embedded
client-IP resolver, the message-validation logic of the handler, and (for
the +location revision) the geolocation adapter and the full handler.
The +location revision's handler does reach `determineBestLocation` — the
function is defined in its own module — so it reconciles, persists and
answers success where the canonical revision crashes (see the
submission-handler model above). -/

/-- The message-validation logic of the canonical handler (`server.js`
lines 306-318), as a standalone function: `some error` on rejection,
`none` on acceptance. -/
def validateMessage (message : Option String) : Option String :=
  if message = none ∨ message.getD "" = "" ∨ (jsTrim (message.getD "")).length = 0 then
    some "Message cannot be empty"
  else if (message.getD "").length > 1000 then
    some "Message too long (max 1000 characters)"
  else
    none

namespace Rev0

/-- Transcription of `getClientIP` from the bare revision (`part_000`
lines 48-74). -/
def getClientIP (req : Request) : String :=
  let ip := orElseStr req.xForwardedFor
    (orElseStr req.xRealIP
      (orElseStr req.xClientIP
        (orElseStr req.connectionRemoteAddress
          (orElseStr req.socketRemoteAddress
            (orElseStr req.reqIp "127.0.0.1")))))
  let ip := if jsIncludes ip "," then jsTrim (jsSplitHeadComma ip) else ip
  let ip := if ip = "::1" then "127.0.0.1" else ip
  let ip := if jsStartsWith ip "::ffff:" then jsSubstringFrom ip 7 else ip
  ip

/-- Transcription of the validation logic of the bare revision's handler
(`part_000` lines 85-97). -/
def validateMessage (message : Option String) : Option String :=
  if message = none ∨ message.getD "" = "" ∨ (jsTrim (message.getD "")).length = 0 then
    some "Message cannot be empty"
  else if (message.getD "").length > 1000 then
    some "Message too long (max 1000 characters)"
  else
    none

end Rev0

namespace Rev1

/-- Transcription of `getClientIP` from the +location revision
(`part_001` lines 69-95). -/
def getClientIP (req : Request) : String :=
  let ip := orElseStr req.xForwardedFor
    (orElseStr req.xRealIP
      (orElseStr req.xClientIP
        (orElseStr req.connectionRemoteAddress
          (orElseStr req.socketRemoteAddress
            (orElseStr req.reqIp "127.0.0.1")))))
  let ip := if jsIncludes ip "," then jsTrim (jsSplitHeadComma ip) else ip
  let ip := if ip = "::1" then "127.0.0.1" else ip
  let ip := if jsStartsWith ip "::ffff:" then jsSubstringFrom ip 7 else ip
  ip

/-- Transcription of the validation logic of the +location revision's
handler (`part_001` lines 177-189). -/
def validateMessage (message : Option String) : Option String :=
  if message = none ∨ message.getD "" = "" ∨ (jsTrim (message.getD "")).length = 0 then
    some "Message cannot be empty"
  else if (message.getD "").length > 1000 then
    some "Message too long (max 1000 characters)"
  else
    none

/-- Transcription of `getIPGeolocation` from the +location revision
(`part_001` lines 98-131). -/
def getIPGeolocation (ip : String) (o : FetchOutcome) : GeoOutcome :=
  if ip == "127.0.0.1" || ip == "::1" || jsStartsWith ip "192.168." || jsStartsWith ip "10." then
    ⟨localSentinel, false⟩
  else
    match o with
    | .ok data =>
        ⟨⟨orElseStr data.country_name "Unknown",
          orElseStr data.city "Unknown",
          orElseStr data.region "Unknown",
          orElseStr data.timezone "Unknown"⟩, true⟩
    | _ => ⟨unknownSentinel, true⟩

/-- The persisted `Message` document of the +location revision's schema
(`part_001` lines 19-54): no `deviceInfo` sub-record. -/
structure MessageRec where
  content : String
  ipAddress : String
  location : StoredLocation
  timestamp : Nat
deriving DecidableEq

/-- The +location revision handler's JSON response: success payload with
the reconciled location, a 400-equivalent validation rejection, or the
500-equivalent catch-all (unreachable in the model, since the store is
out of scope). -/
inductive Resp where
  | ok (message : String) (locCity locCountry locSource : String)
  | badRequest (error : String)
  | serverError (error : String)
deriving DecidableEq

/-- Is the response the success payload? -/
def Resp.isOk : Resp → Bool
  | .ok .. => true
  | _ => false

/-- Transcription of the `POST /send-message` handler from the +location
revision (`part_001` lines 166-249): validation, IP resolution, awaited
geolocation, location bundle, reconciliation via the module's own
`determineBestLocation`, insert, and the success response. -/
def sendMessage (req : Request) (fetchO : FetchOutcome) (now : Nat) :
    Resp × List MessageRec :=
  let message := req.body.message
  if message = none ∨ message.getD "" = "" ∨ (jsTrim (message.getD "")).length = 0 then
    (.badRequest "Message cannot be empty", [])
  else if (message.getD "").length > 1000 then
    (.badRequest "Message too long (max 1000 characters)", [])
  else
    let clientIP := getClientIP req
    let ipLocation := (getIPGeolocation clientIP fetchO).result
    let locationData : LocationData :=
      { ip_country := ipLocation.country
        ip_city := ipLocation.city
        ip_region := ipLocation.region
        ip_timezone := ipLocation.timezone
        gps_latitude := jsNumOrNull req.body.gps_latitude
        gps_longitude := jsNumOrNull req.body.gps_longitude
        gps_accuracy := jsNumOrNull req.body.gps_accuracy
        browser_timezone := orElseStr req.body.browser_timezone "Unknown"
        browser_language := orElseStr req.body.browser_language "Unknown" }
    let bestLocation := determineBestLocation locationData
    let newMessage : MessageRec :=
      { content := jsTrim (message.getD "")
        ipAddress := clientIP
        location := ⟨locationData, bestLocation.country, bestLocation.city, bestLocation.source⟩
        timestamp := now }
    (.ok "Message sent anonymously!"
       bestLocation.city bestLocation.country bestLocation.source,
     [newMessage])

end Rev1

/-- A valid message makes the +location revision's handler succeed and
persist the trimmed content. -/
lemma rev1_sendMessage_valid (req : Request) (o : FetchOutcome) (now : Nat)
    (m : String) (hm : req.body.message = some m)
    (h1 : 1 ≤ (jsTrim m).length) (h3 : m.length ≤ 1000) :
    (Rev1.sendMessage req o now).1.isOk = true ∧
    (Rev1.sendMessage req o now).2.map (fun r => r.content) = [jsTrim m] := by
  have hc1 : ¬(some m = none ∨ m = "" ∨ (jsTrim m).length = 0) := by
    rintro (h | h | h)
    · exact Option.noConfusion h
    · rw [h] at h1
      exact absurd h1 (by decide)
    · omega
  have hc2 : ¬(m.length > 1000) := by omega
  simp only [Rev1.sendMessage, hm, Option.getD_some]
  rw [if_neg hc1, if_neg hc2]
  exact ⟨rfl, rfl⟩

/-- C9 (code bug): the three revisions agree on the client-IP resolver
(equal as functions), the message-validation logic and the geolocation
adapter — but not on the whole claimed shared surface: the canonical
revision never defines `determineBestLocation`, so on every valid
submission, where the +location revision reconciles, persists the trimmed
content and answers success, the canonical revision throws and answers
the 500-equivalent catch-all with no insert.  The canonical revision is
therefore not a behavioural superset of the +location revision, contrary
to the claim (and to the spec's strict-subset intent). -/
theorem revisions_shared_surface_and_divergence :
    (∀ r, Rev0.getClientIP r = getClientIP r) ∧
    (∀ r, Rev1.getClientIP r = getClientIP r) ∧
    (∀ m, Rev0.validateMessage m = validateMessage m) ∧
    (∀ m, Rev1.validateMessage m = validateMessage m) ∧
    (∀ ip o, Rev1.getIPGeolocation ip o = getIPGeolocation ip o) ∧
    (∀ req o now m, req.body.message = some m →
      1 ≤ (jsTrim m).length → m.length ≤ 1000 →
      (Rev1.sendMessage req o now).1.isOk = true ∧
      (Rev1.sendMessage req o now).2.map (fun r => r.content) = [jsTrim m] ∧
      sendMessage req o now
        = (.serverError "Failed to send message. Please try again.", [])) :=
  ⟨fun _ => rfl, fun _ => rfl, fun _ => rfl, fun _ => rfl, fun _ _ => rfl,
   fun req o now m hm h1 h3 =>
     ⟨(rev1_sendMessage_valid req o now m hm h1 h3).1,
      (rev1_sendMessage_valid req o now m hm h1 h3).2,
      sendMessage_valid_eq_catchall req o now m hm h1 h3⟩⟩

/-- Witness for C9's divergence at the valid message `"hey"`: the
+location revision succeeds and persists it, the canonical revision
answers the 500-equivalent catch-all with no insert. -/
theorem revisions_shared_surface_and_divergence_witness :
    (Rev1.sendMessage (plainRequest (some "hey")) .notOk 0).1.isOk = true ∧
    (Rev1.sendMessage (plainRequest (some "hey")) .notOk 0).2.map (fun r => r.content)
      = [jsTrim "hey"] ∧
    sendMessage (plainRequest (some "hey")) .notOk 0
      = (.serverError "Failed to send message. Please try again.", []) :=
  revisions_shared_surface_and_divergence.2.2.2.2.2
    (plainRequest (some "hey")) .notOk 0 "hey" rfl (by decide) (by decide)
